import Mathlib

/-!
Verification of the gateway pairing / session layer of the Outsmart
repository (src/components/gateway.py, src/interfaces/llms.py).

Strings that travel through the encoding pipeline are modelled as lists of
Unicode scalar values (`List Nat`); other strings are Lean `String`s.
External library calls (the glueco SDK, the Python `json` and `base64`
standard libraries) are modelled at the call-site granularity used by the
repository, as documented on each definition.
-/

set_option maxRecDepth 8000

namespace Outsmart

/-- A Unicode scalar value: a codepoint below 0x110000 that is not a
surrogate.  Python `str` values produced from well-formed text satisfy
this; it matches Lean's `Char` invariant. -/
def ValidScalar (c : Nat) : Prop :=
  c < 0x110000 ∧ ¬ (0xD800 ≤ c ∧ c < 0xE000)

instance (c : Nat) : Decidable (ValidScalar c) := by
  unfold ValidScalar; infer_instance

/-! ### URL-safe base64 (models Python `base64.urlsafe_b64encode` /
`urlsafe_b64decode` at the `_encode_state` / `_decode_state` call sites) -/

/-- Value 0..63 to the URL-safe base64 alphabet character
(`A-Z a-z 0-9 - _`). -/
def b64EncChar (n : Nat) : Nat :=
  if n < 26 then 65 + n
  else if n < 52 then 97 + (n - 26)
  else if n < 62 then 48 + (n - 52)
  else if n = 62 then 45
  else 95

/-- Base64-encode a byte list, with `=` (0x3D) padding, as
`base64.urlsafe_b64encode` does. -/
def b64encode : List Nat → List Nat
  | [] => []
  | [a] => [b64EncChar (a / 4), b64EncChar (a % 4 * 16), 61, 61]
  | [a, b] => [b64EncChar (a / 4), b64EncChar (a % 4 * 16 + b / 16),
               b64EncChar (b % 16 * 4), 61]
  | a :: b :: c :: rest =>
      b64EncChar (a / 4) :: b64EncChar (a % 4 * 16 + b / 16) ::
      b64EncChar (b % 16 * 4 + c / 64) :: b64EncChar (c % 64) :: b64encode rest

/-- The alphabet translation `urlsafe_b64decode` applies before
decoding: `-` (45) becomes `+` (43) and `_` (95) becomes `/` (47);
every other byte is left unchanged, so the standard alphabet is
accepted as well. -/
def urlsafe_translate (c : Nat) : Nat :=
  if c = 45 then 43 else if c = 95 then 47 else c

/-- Standard base64 alphabet byte to its 6-bit value (the `binascii`
decoding table); `none` for every byte outside the alphabet. -/
def b64DecCharStd (c : Nat) : Option Nat :=
  if 65 ≤ c ∧ c ≤ 90 then some (c - 65)
  else if 97 ≤ c ∧ c ≤ 122 then some (c - 71)
  else if 48 ≤ c ∧ c ≤ 57 then some (c + 4)
  else if c = 43 then some 62
  else if c = 47 then some 63
  else none

/-- CPython's `binascii.a2b_base64` in the default non-strict mode, as
`base64.b64decode` invokes it: bytes outside the alphabet are discarded;
a `=` is counted only when the current quad already has two or three
data characters (otherwise it is ignored), and a pad count completing
the quad ends decoding successfully, ignoring all remaining input;
input ending with a partial quad raises `binascii.Error`, modelled as
`none`.  The three state arguments are the quad position, the leftover
bits and the running pad count. -/
def a2b_base64 : Nat → Nat → Nat → List Nat → Option (List Nat)
  | qp, _, _, [] => if qp = 0 then some [] else none
  | qp, lc, pads, c :: rest =>
    if c = 61 then
      if 2 ≤ qp then
        if 4 ≤ qp + (pads + 1) then some []
        else a2b_base64 qp lc (pads + 1) rest
      else a2b_base64 qp lc pads rest
    else
      match b64DecCharStd c with
      | none => a2b_base64 qp lc pads rest
      | some v =>
        match qp with
        | 0 => a2b_base64 1 v 0 rest
        | 1 => (a2b_base64 2 (v % 16) 0 rest).map
            (fun l => (lc * 4 + v / 16) :: l)
        | 2 => (a2b_base64 3 (v % 4) 0 rest).map
            (fun l => (lc * 16 + v / 4) :: l)
        | _ => (a2b_base64 0 0 0 rest).map
            (fun l => (lc * 64 + v) :: l)

/-- Model of `base64.urlsafe_b64decode`: translate the URL-safe
alphabet, then decode with the lenient `binascii` machine; `none`
models the `binascii.Error` raised on a trailing partial quad (caught
by the caller of `_decode_state`). -/
def b64decode (s : List Nat) : Option (List Nat) :=
  a2b_base64 0 0 0 (s.map urlsafe_translate)

theorem b64DecCharStd_enc :
    ∀ n < 64, b64DecCharStd (urlsafe_translate (b64EncChar n)) = some n := by
  decide

theorem translate_enc_ne_pad :
    ∀ n < 64, urlsafe_translate (b64EncChar n) ≠ 61 := by decide

theorem b64EncChar_ne_pad : ∀ n < 64, b64EncChar n ≠ 61 := by decide

theorem b64EncChar_lt : ∀ n < 64, b64EncChar n < 128 := by decide

theorem a2b_data0 (n : Nat) (hn : n < 64) (lc pads : Nat)
    (rest : List Nat) :
    a2b_base64 0 lc pads (urlsafe_translate (b64EncChar n) :: rest) =
      a2b_base64 1 n 0 rest := by
  rw [a2b_base64, if_neg (translate_enc_ne_pad n hn), b64DecCharStd_enc n hn]

theorem a2b_data1 (n : Nat) (hn : n < 64) (lc pads : Nat)
    (rest : List Nat) :
    a2b_base64 1 lc pads (urlsafe_translate (b64EncChar n) :: rest) =
      (a2b_base64 2 (n % 16) 0 rest).map
        (fun l => (lc * 4 + n / 16) :: l) := by
  rw [a2b_base64, if_neg (translate_enc_ne_pad n hn), b64DecCharStd_enc n hn]

theorem a2b_data2 (n : Nat) (hn : n < 64) (lc pads : Nat)
    (rest : List Nat) :
    a2b_base64 2 lc pads (urlsafe_translate (b64EncChar n) :: rest) =
      (a2b_base64 3 (n % 4) 0 rest).map
        (fun l => (lc * 16 + n / 4) :: l) := by
  rw [a2b_base64, if_neg (translate_enc_ne_pad n hn), b64DecCharStd_enc n hn]

theorem a2b_data3 (n : Nat) (hn : n < 64) (lc pads : Nat)
    (rest : List Nat) :
    a2b_base64 3 lc pads (urlsafe_translate (b64EncChar n) :: rest) =
      (a2b_base64 0 0 0 rest).map (fun l => (lc * 64 + n) :: l) := by
  rw [a2b_base64, if_neg (translate_enc_ne_pad n hn), b64DecCharStd_enc n hn]

theorem a2b_pad22 (lc : Nat) : a2b_base64 2 lc 0 [61, 61] = some [] := rfl

theorem a2b_pad31 (lc : Nat) : a2b_base64 3 lc 0 [61] = some [] := rfl

theorem b64decode_b64encode (l : List Nat) (h : ∀ x ∈ l, x < 256) :
    b64decode (b64encode l) = some l := by
  rw [b64decode]
  match l with
  | [] => rfl
  | [a] =>
    have ha : a < 256 := h a (by simp)
    have h1 : a / 4 < 64 := by omega
    have h2 : a % 4 * 16 < 64 := by omega
    have e1 : a / 4 * 4 + a % 4 * 16 / 16 = a := by omega
    rw [b64encode]
    simp only [List.map_cons, List.map_nil]
    rw [show urlsafe_translate 61 = 61 from rfl]
    rw [a2b_data0 _ h1, a2b_data1 _ h2, a2b_pad22]
    simp only [Option.map_some', e1]
  | [a, b] =>
    have ha : a < 256 := h a (by simp)
    have hb : b < 256 := h b (by simp)
    have h1 : a / 4 < 64 := by omega
    have h2 : a % 4 * 16 + b / 16 < 64 := by omega
    have h3 : b % 16 * 4 < 64 := by omega
    have e1 : a / 4 * 4 + (a % 4 * 16 + b / 16) / 16 = a := by omega
    have e2 : (a % 4 * 16 + b / 16) % 16 * 16 + b % 16 * 4 / 4 = b := by omega
    rw [b64encode]
    simp only [List.map_cons, List.map_nil]
    rw [show urlsafe_translate 61 = 61 from rfl]
    rw [a2b_data0 _ h1, a2b_data1 _ h2, a2b_data2 _ h3, a2b_pad31]
    simp only [Option.map_some', e1, e2]
  | a :: b :: c :: rest =>
    have ha : a < 256 := h a (by simp)
    have hb : b < 256 := h b (by simp)
    have hc : c < 256 := h c (by simp)
    have h1 : a / 4 < 64 := by omega
    have h2 : a % 4 * 16 + b / 16 < 64 := by omega
    have h3 : b % 16 * 4 + c / 64 < 64 := by omega
    have h4 : c % 64 < 64 := by omega
    have e1 : a / 4 * 4 + (a % 4 * 16 + b / 16) / 16 = a := by omega
    have e2 : (a % 4 * 16 + b / 16) % 16 * 16 + (b % 16 * 4 + c / 64) / 4 = b := by
      omega
    have e3 : (b % 16 * 4 + c / 64) % 4 * 64 + c % 64 = c := by omega
    have ih := b64decode_b64encode rest (fun x hx => h x (by simp [hx]))
    rw [b64decode] at ih
    rw [b64encode]
    simp only [List.map_cons]
    rw [a2b_data0 _ h1, a2b_data1 _ h2, a2b_data2 _ h3, a2b_data3 _ h4, ih]
    simp only [Option.map_some', e1, e2, e3]

theorem mem_b64encode_lt (l : List Nat) (h : ∀ x ∈ l, x < 256) :
    ∀ y ∈ b64encode l, y < 128 := by
  match l with
  | [] => intro y hy; simp [b64encode] at hy
  | [a] =>
    have ha : a < 256 := h a (by simp)
    intro y hy
    simp only [b64encode, List.mem_cons, List.not_mem_nil, or_false] at hy
    rcases hy with rfl | rfl | rfl | rfl
    · exact b64EncChar_lt _ (by omega)
    · exact b64EncChar_lt _ (by omega)
    · omega
    · omega
  | [a, b] =>
    have ha : a < 256 := h a (by simp)
    have hb : b < 256 := h b (by simp)
    intro y hy
    simp only [b64encode, List.mem_cons, List.not_mem_nil, or_false] at hy
    rcases hy with rfl | rfl | rfl | rfl
    · exact b64EncChar_lt _ (by omega)
    · exact b64EncChar_lt _ (by omega)
    · exact b64EncChar_lt _ (by omega)
    · omega
  | a :: b :: c :: rest =>
    have ha : a < 256 := h a (by simp)
    have hb : b < 256 := h b (by simp)
    have hc : c < 256 := h c (by simp)
    intro y hy
    simp only [b64encode, List.mem_cons] at hy
    rcases hy with rfl | rfl | rfl | rfl | hy
    · exact b64EncChar_lt _ (by omega)
    · exact b64EncChar_lt _ (by omega)
    · exact b64EncChar_lt _ (by omega)
    · exact b64EncChar_lt _ (by omega)
    · exact mem_b64encode_lt rest (fun x hx => h x (by simp [hx])) y hy

/-! ### UTF-8 (models `str.encode()` and `bytes.decode()` at the
`_decode_state` call site: strict UTF-8 in both directions) -/

/-- UTF-8 encoding of one codepoint; `none` models the
`UnicodeEncodeError` raised by `str.encode()` on a lone surrogate or an
out-of-range value. -/
def utf8EncodeChar (c : Nat) : Option (List Nat) :=
  if c < 0x80 then some [c]
  else if c < 0x800 then some [0xC0 + c / 0x40, 0x80 + c % 0x40]
  else if c < 0x10000 then
    if 0xD800 ≤ c ∧ c < 0xE000 then none
    else some [0xE0 + c / 0x1000, 0x80 + c / 0x40 % 0x40, 0x80 + c % 0x40]
  else if c < 0x110000 then
    some [0xF0 + c / 0x40000, 0x80 + c / 0x1000 % 0x40,
          0x80 + c / 0x40 % 0x40, 0x80 + c % 0x40]
  else none

/-- UTF-8 encoding of a string of codepoints, as `str.encode()`
produces it. -/
def utf8Encode : List Nat → Option (List Nat)
  | [] => some []
  | c :: rest =>
    (utf8EncodeChar c).bind fun b => (utf8Encode rest).map (fun t => b ++ t)

/-- Decode one UTF-8 sequence from the front of a byte list, strictly:
truncated sequences, stray continuation bytes, overlong encodings,
surrogates and values above 0x10FFFF are rejected. -/
def utf8DecodeChar (b1 : Nat) (rest : List Nat) : Option (Nat × List Nat) :=
  if b1 < 0x80 then some (b1, rest)
    else if 0xC2 ≤ b1 ∧ b1 ≤ 0xDF then
      match rest with
      | b2 :: rest2 =>
        if 0x80 ≤ b2 ∧ b2 ≤ 0xBF then
          some ((b1 - 0xC0) * 0x40 + (b2 - 0x80), rest2)
        else none
      | [] => none
    else if 0xE0 ≤ b1 ∧ b1 ≤ 0xEF then
      match rest with
      | b2 :: b3 :: rest3 =>
        if (if b1 = 0xE0 then 0xA0 else 0x80) ≤ b2 ∧
            b2 ≤ (if b1 = 0xED then 0x9F else 0xBF) ∧
            0x80 ≤ b3 ∧ b3 ≤ 0xBF then
          some ((b1 - 0xE0) * 0x1000 + (b2 - 0x80) * 0x40 + (b3 - 0x80),
                rest3)
        else none
      | _ => none
    else if 0xF0 ≤ b1 ∧ b1 ≤ 0xF4 then
      match rest with
      | b2 :: b3 :: b4 :: rest4 =>
        if (if b1 = 0xF0 then 0x90 else 0x80) ≤ b2 ∧
            b2 ≤ (if b1 = 0xF4 then 0x8F else 0xBF) ∧
            0x80 ≤ b3 ∧ b3 ≤ 0xBF ∧ 0x80 ≤ b4 ∧ b4 ≤ 0xBF then
          some ((b1 - 0xF0) * 0x40000 + (b2 - 0x80) * 0x1000 +
                (b3 - 0x80) * 0x40 + (b4 - 0x80), rest4)
        else none
      | _ => none
    else none

/-- The decoding loop behind `utf8Decode`; each decoded sequence
consumes at least one byte, so fuel exceeding the input length never
runs out. -/
def utf8DecodeLoop : Nat → List Nat → Option (List Nat)
  | 0, _ => none
  | _ + 1, [] => some []
  | fuel + 1, b :: rest =>
    match utf8DecodeChar b rest with
    | some (c, r) => (utf8DecodeLoop fuel r).map (fun t => c :: t)
    | none => none

/-- Strict UTF-8 decoding of a byte list, as `bytes.decode()` performs
it; `none` models the `UnicodeDecodeError` the callers catch. -/
def utf8Decode (s : List Nat) : Option (List Nat) :=
  utf8DecodeLoop (s.length + 1) s

theorem utf8Encode_ascii (s : List Nat) (h : ∀ c ∈ s, c < 128) :
    utf8Encode s = some s := by
  induction s with
  | nil => rfl
  | cons c cs ih =>
    have hc : c < 128 := h c (by simp)
    rw [utf8Encode, show utf8EncodeChar c = some [c] by
          rw [utf8EncodeChar, if_pos hc],
        Option.some_bind, ih (fun x hx => h x (by simp [hx]))]
    rfl

theorem utf8DecodeLoop_ascii (s : List Nat) (h : ∀ c ∈ s, c < 128) :
    ∀ fuel, s.length < fuel → utf8DecodeLoop fuel s = some s := by
  induction s with
  | nil =>
    intro fuel hf
    match fuel, hf with
    | f + 1, _ => rfl
  | cons b bs ih =>
    intro fuel hf
    match fuel, hf with
    | f + 1, hf =>
      have hb : b < 128 := h b (by simp)
      rw [utf8DecodeLoop,
          show utf8DecodeChar b bs = some (b, bs) by
            simp only [utf8DecodeChar]
            rw [if_pos hb]]
      dsimp only
      rw [ih (fun x hx => h x (by simp [hx])) f (by
        simp only [List.length_cons] at hf; omega)]
      rfl

theorem utf8Decode_ascii (s : List Nat) (h : ∀ c ∈ s, c < 128) :
    utf8Decode s = some s :=
  utf8DecodeLoop_ascii s h (s.length + 1) (by omega)

/-! ### JSON serialization (models `json.dumps` with its defaults —
`ensure_ascii=True`, separators `", "` and `": "` — at the
`_encode_state` call site) -/

/-- Lowercase hex digit character for a value 0..15, as CPython's
`ensure_ascii` escaping emits. -/
def hexDigit (d : Nat) : Nat :=
  if d < 10 then 48 + d else 87 + d

/-- Four lowercase hex digit characters of a value below 0x10000. -/
def hex4 (n : Nat) : List Nat :=
  [hexDigit (n / 4096 % 16), hexDigit (n / 256 % 16),
   hexDigit (n / 16 % 16), hexDigit (n % 16)]

/-- Hex digit character back to its value (`json.loads` accepts both
cases). -/
def hexVal (c : Nat) : Option Nat :=
  if 48 ≤ c ∧ c ≤ 57 then some (c - 48)
  else if 97 ≤ c ∧ c ≤ 102 then some (c - 87)
  else if 65 ≤ c ∧ c ≤ 70 then some (c - 55)
  else none

/-- JSON escape of one codepoint as `json.dumps` with `ensure_ascii=True`
produces it: short escapes for `"`, `\` and the common controls, `\uXXXX`
for other controls and all non-ASCII codepoints, with a surrogate pair for
codepoints at or above 0x10000. -/
def escapeChar (c : Nat) : List Nat :=
  if c = 0x22 then [0x5C, 0x22]
  else if c = 0x5C then [0x5C, 0x5C]
  else if c = 0x08 then [0x5C, 0x62]
  else if c = 0x09 then [0x5C, 0x74]
  else if c = 0x0A then [0x5C, 0x6E]
  else if c = 0x0C then [0x5C, 0x66]
  else if c = 0x0D then [0x5C, 0x72]
  else if c < 0x20 then 0x5C :: 0x75 :: hex4 c
  else if c ≤ 0x7E then [c]
  else if c < 0x10000 then 0x5C :: 0x75 :: hex4 c
  else 0x5C :: 0x75 :: hex4 (0xD800 + (c - 0x10000) / 0x400) ++
       0x5C :: 0x75 :: hex4 (0xDC00 + (c - 0x10000) % 0x400)

/-- JSON escape of a whole string body. -/
def escapeString : List Nat → List Nat
  | [] => []
  | c :: cs => escapeChar c ++ escapeString cs

/-- A string rendered as a JSON string literal — quote, escaped body,
quote — followed by the rest of the document. -/
def Q (s X : List Nat) : List Nat :=
  0x22 :: (escapeString s ++ 0x22 :: X)

/-! ### JSON parsing (models `json.loads` at the `_decode_state` call
site: strings, string-keyed objects, arrays, numbers, `true`, `false`,
`null` and the non-standard `NaN`/`Infinity`/`-Infinity` constants the
scanner accepts by default, with standard whitespace handling.
CPython's runtime recursion limit, a mutable interpreter setting that
aborts parsing of inputs nested thousands of levels deep, is the one
aspect left unmodelled; no theorem below quantifies over such inputs.) -/

/-- Decoded JSON values.  A number keeps its literal's parts — sign,
integer digits, fraction digits, optional exponent sign and digits —
which determine the `int`/`float` Python builds from it; `jinf` and
`jnan` stand for the infinity and NaN constants. -/
inductive JVal where
  | jstr : List Nat → JVal
  | jobj : List (List Nat × JVal) → JVal
  | jarr : List JVal → JVal
  | jnum : Bool → List Nat → List Nat → Option (Bool × List Nat) → JVal
  | jbool : Bool → JVal
  | jnull : JVal
  | jinf : Bool → JVal
  | jnan : JVal

/-- Short escape resolution for `json.loads`. -/
def unescapeSimple (e : Nat) : Option Nat :=
  if e = 0x22 then some 0x22
  else if e = 0x5C then some 0x5C
  else if e = 0x2F then some 0x2F
  else if e = 0x62 then some 0x08
  else if e = 0x66 then some 0x0C
  else if e = 0x6E then some 0x0A
  else if e = 0x72 then some 0x0D
  else if e = 0x74 then some 0x09
  else none

/-- Parse four hex digits into a value below 0x10000. -/
def parseHex4 : List Nat → Option (Nat × List Nat)
  | h1 :: h2 :: h3 :: h4 :: rest =>
    match hexVal h1, hexVal h2, hexVal h3, hexVal h4 with
    | some v1, some v2, some v3, some v4 =>
      some (((v1 * 16 + v2) * 16 + v3) * 16 + v4, rest)
    | _, _, _, _ => none
  | _ => none

/-- Parse the hex digits of a `\uXXXX` escape, combining a high
surrogate with an immediately following `\uXXXX` low surrogate into one
codepoint, as `json.loads` does; a high surrogate not followed by a low
one stands for itself. -/
def parseUEscape (s : List Nat) : Option (Nat × List Nat) :=
  match parseHex4 s with
  | none => none
  | some (code, rest) =>
    if 0xD800 ≤ code ∧ code < 0xDC00 then
      match rest with
      | 0x5C :: 0x75 :: rest2 =>
        match parseHex4 rest2 with
        | some (low, rest3) =>
          if 0xDC00 ≤ low ∧ low < 0xE000 then
            some (0x10000 + (code - 0xD800) * 0x400 + (low - 0xDC00), rest3)
          else some (code, rest)
        | none => some (code, rest)
      | _ => some (code, rest)
    else some (code, rest)

/-- One lexical unit of a JSON string body: the closing quote or one
decoded character. -/
inductive StrUnit where
  | close : StrUnit
  | chr : Nat → StrUnit

/-- Decode one unit of a JSON string body: the closing quote, an escape
sequence, or a plain character; unescaped control characters are
rejected. -/
def parseUnit : List Nat → Option (StrUnit × List Nat)
  | [] => none
  | c :: rest =>
    if c = 0x22 then some (StrUnit.close, rest)
    else if c = 0x5C then
      match rest with
      | [] => none
      | e :: rest2 =>
        if e = 0x75 then
          (parseUEscape rest2).map (fun p => (StrUnit.chr p.1, p.2))
        else
          match unescapeSimple e with
          | some u => some (StrUnit.chr u, rest2)
          | none => none
    else if c < 0x20 then none
    else some (StrUnit.chr c, rest)

/-- Parse a JSON string body after the opening quote, returning the
decoded codepoints and the remaining input.  The fuel argument only
needs to exceed the number of decoded characters; callers pass the
input length. -/
def parseStringBody : Nat → List Nat → Option (List Nat × List Nat)
  | 0, _ => none
  | fuel + 1, s =>
    match parseUnit s with
    | some (StrUnit.close, rest) => some ([], rest)
    | some (StrUnit.chr c, rest) =>
      (parseStringBody fuel rest).map (fun p => (c :: p.1, p.2))
    | none => none

/-- Skip JSON whitespace. -/
def skipWs : List Nat → List Nat
  | c :: rest =>
    if c = 0x20 ∨ c = 0x09 ∨ c = 0x0A ∨ c = 0x0D then skipWs rest
    else c :: rest
  | [] => []

/-- Munch a maximal run of decimal digits, returning their values and
the remaining input. -/
def munchDigits : List Nat → List Nat × List Nat
  | [] => ([], [])
  | c :: rest =>
    if 48 ≤ c ∧ c ≤ 57 then
      let p := munchDigits rest
      ((c - 48) :: p.1, p.2)
    else ([], c :: rest)

/-- The optional fraction part of the scanner's number regex,
`(\.\d+)?`: the dot is consumed only when at least one digit follows
it; otherwise nothing is consumed. -/
def parseFrac (s : List Nat) : List Nat × List Nat :=
  match s with
  | 0x2E :: rest =>
    match munchDigits rest with
    | ([], _) => ([], s)
    | (ds, r) => (ds, r)
  | _ => ([], s)

/-- The optional exponent part of the scanner's number regex,
`([eE][-+]?\d+)?`: consumed only when the `e`/`E` and optional sign are
followed by at least one digit; the result carries the sign and the
digits. -/
def parseExp (s : List Nat) : Option (Bool × List Nat) × List Nat :=
  match s with
  | c :: t :: rest =>
    if c = 0x65 ∨ c = 0x45 then
      if t = 0x2B then
        match munchDigits rest with
        | ([], _) => (none, s)
        | (ds, r) => (some (false, ds), r)
      else if t = 0x2D then
        match munchDigits rest with
        | ([], _) => (none, s)
        | (ds, r) => (some (true, ds), r)
      else
        match munchDigits (t :: rest) with
        | ([], _) => (none, s)
        | (ds, r) => (some (false, ds), r)
    else (none, s)
  | _ => (none, s)

/-- A JSON number after its optional minus sign, following the
scanner's regex `(0|[1-9]\d*)(\.\d+)?([eE][-+]?\d+)?`: a leading `0`
takes no further integer digits (so `0123` scans as `0` and leaves
`123` to fail in the surrounding grammar, as CPython does). -/
def parseNumber (neg : Bool) (s : List Nat) : Option (JVal × List Nat) :=
  match s with
  | c :: rest =>
    if c = 48 then
      let f := parseFrac rest
      let e := parseExp f.2
      some (JVal.jnum neg [0] f.1 e.1, e.2)
    else if 49 ≤ c ∧ c ≤ 57 then
      let m := munchDigits (c :: rest)
      let f := parseFrac m.2
      let e := parseExp f.2
      some (JVal.jnum neg m.1 f.1 e.1, e.2)
    else none
  | [] => none

/-- Codepoints of the literal `true`. -/
def litTrue : List Nat := [116, 114, 117, 101]

/-- Codepoints of the literal `false`. -/
def litFalse : List Nat := [102, 97, 108, 115, 101]

/-- Codepoints of the literal `null`. -/
def litNull : List Nat := [110, 117, 108, 108]

/-- Codepoints of the literal `NaN`. -/
def litNaN : List Nat := [78, 97, 78]

/-- Codepoints of the literal `Infinity`. -/
def litInfinity : List Nat := [73, 110, 102, 105, 110, 105, 116, 121]

/-- Strip an expected literal from the front of the input. -/
def dropLit : List Nat → List Nat → Option (List Nat)
  | [], s => some s
  | _ :: _, [] => none
  | l :: ls, c :: cs => if c = l then dropLit ls cs else none

/-- Parse the scalar values the scanner recognizes at a value position:
`true`, `false`, `null`, the non-standard `NaN`, `Infinity` and
`-Infinity` that `json.loads` accepts by default, and numbers. -/
def parseScalar (t : List Nat) : Option (JVal × List Nat) :=
  match dropLit litTrue t with
  | some r => some (JVal.jbool true, r)
  | none =>
    match dropLit litFalse t with
    | some r => some (JVal.jbool false, r)
    | none =>
      match dropLit litNull t with
      | some r => some (JVal.jnull, r)
      | none =>
        match dropLit litNaN t with
        | some r => some (JVal.jnan, r)
        | none =>
          match dropLit litInfinity t with
          | some r => some (JVal.jinf false, r)
          | none =>
            match t with
            | 0x2D :: rest =>
              (match parseNumber true rest with
               | some p => some p
               | none =>
                 match dropLit litInfinity rest with
                 | some r => some (JVal.jinf true, r)
                 | none => none)
            | _ => parseNumber false t

mutual

/-- Parse one JSON value after optional whitespace.  The fuel argument
only bounds container nesting; `jsonLoads` supplies enough for any
input (each level of nesting consumes at least one input character per
unit of fuel spent). -/
def parseVal : Nat → List Nat → Option (JVal × List Nat)
  | 0, _ => none
  | fuel + 1, s =>
    match skipWs s with
    | 0x22 :: rest =>
      (parseStringBody (rest.length + 1) rest).map
        (fun p => (JVal.jstr p.1, p.2))
    | 0x7B :: rest =>
      match skipWs rest with
      | 0x7D :: r2 => some (JVal.jobj [], r2)
      | _ => (parseFields fuel rest).map (fun p => (JVal.jobj p.1, p.2))
    | 0x5B :: rest =>
      match skipWs rest with
      | 0x5D :: r2 => some (JVal.jarr [], r2)
      | _ => (parseElems fuel rest).map (fun p => (JVal.jarr p.1, p.2))
    | t => parseScalar t

/-- Parse the fields of a JSON object after the opening brace (for a
non-empty object), up to and including the closing brace. -/
def parseFields : Nat → List Nat → Option (List (List Nat × JVal) × List Nat)
  | 0, _ => none
  | fuel + 1, s =>
    match skipWs s with
    | 0x22 :: rest =>
      match parseStringBody (rest.length + 1) rest with
      | none => none
      | some (key, r1) =>
        match skipWs r1 with
        | 0x3A :: r2 =>
          match parseVal fuel r2 with
          | none => none
          | some (v, r3) =>
            match skipWs r3 with
            | 0x2C :: r4 =>
              (parseFields fuel r4).map (fun p => ((key, v) :: p.1, p.2))
            | 0x7D :: r4 => some ([(key, v)], r4)
            | _ => none
        | _ => none
    | _ => none

/-- Parse the elements of a JSON array after the opening bracket (for a
non-empty array), up to and including the closing bracket. -/
def parseElems : Nat → List Nat → Option (List JVal × List Nat)
  | 0, _ => none
  | fuel + 1, s =>
    match parseVal fuel s with
    | none => none
    | some (v, r1) =>
      match skipWs r1 with
      | 0x5D :: r2 => some ([v], r2)
      | 0x2C :: r2 => (parseElems fuel r2).map (fun p => (v :: p.1, p.2))
      | _ => none

end

/-- Parse a full JSON document, rejecting trailing garbage as
`json.loads` does. -/
def jsonLoads (s : List Nat) : Option JVal :=
  match parseVal (s.length + 1) s with
  | some (v, rest) => if skipWs rest = [] then some v else none
  | none => none

/-! ### Pending state (gateway.py `pending_data`, `_encode_state`,
`_decode_state`) -/

/-- A signing keypair as carried in the pending-state dict
(`pending_data["keypair"]`): public and private key strings, modelled as
codepoint lists. -/
structure KeyPair where
  public_key : List Nat
  private_key : List Nat
deriving DecidableEq

/-- The pending state built by `_initiate_connection`:
`{"proxy_url": ..., "keypair": {"public_key": ..., "private_key": ...}}`. -/
structure PendingData where
  proxy_url : List Nat
  keypair : KeyPair
deriving DecidableEq

/-- Codepoints of the literal key `proxy_url`. -/
def kProxyUrl : List Nat := [112, 114, 111, 120, 121, 95, 117, 114, 108]

/-- Codepoints of the literal key `keypair`. -/
def kKeypair : List Nat := [107, 101, 121, 112, 97, 105, 114]

/-- Codepoints of the literal key `public_key`. -/
def kPublicKey : List Nat := [112, 117, 98, 108, 105, 99, 95, 107, 101, 121]

/-- Codepoints of the literal key `private_key`. -/
def kPrivateKey : List Nat :=
  [112, 114, 105, 118, 97, 116, 101, 95, 107, 101, 121]

/-- The JSON text `json.dumps(pending_data)` produces (default
separators: a space after each `:` and `,`). -/
def dumpsPending (p : PendingData) : List Nat :=
  0x7B :: Q kProxyUrl (0x3A :: 0x20 ::
    Q p.proxy_url (0x2C :: 0x20 ::
      Q kKeypair (0x3A :: 0x20 :: 0x7B ::
        Q kPublicKey (0x3A :: 0x20 ::
          Q p.keypair.public_key (0x2C :: 0x20 ::
            Q kPrivateKey (0x3A :: 0x20 ::
              Q p.keypair.private_key (0x7D :: [0x7D])))))))

/-- The JSON value corresponding to the pending-state dict. -/
def jvalOfPending (p : PendingData) : JVal :=
  JVal.jobj
    [(kProxyUrl, JVal.jstr p.proxy_url),
     (kKeypair, JVal.jobj
       [(kPublicKey, JVal.jstr p.keypair.public_key),
        (kPrivateKey, JVal.jstr p.keypair.private_key)])]

/-- Model of `_encode_state` (gateway.py): `json.dumps` then
`base64.urlsafe_b64encode` of the UTF-8 bytes; the dumped text is pure
ASCII because `ensure_ascii` is on, so bytes coincide with codepoints. -/
def _encode_state (p : PendingData) : List Nat :=
  b64encode (dumpsPending p)

/-- Model of `_decode_state` (gateway.py):
`json.loads(base64.urlsafe_b64decode(encoded.encode()).decode())`.
`encoded.encode()` is strict UTF-8 encoding of the parameter,
`urlsafe_b64decode` is CPython's lenient base64, `.decode()` is strict
UTF-8 decoding of the resulting bytes, and `json.loads` parses the
text; `none` stands for the exceptions the callers catch. -/
def _decode_state (s : List Nat) : Option JVal :=
  (utf8Encode s).bind fun data =>
    (b64decode data).bind fun raw =>
      (utf8Decode raw).bind jsonLoads

/-- Python dict key lookup on a decoded JSON object: for duplicate keys
`json.loads` keeps the last occurrence. -/
def lookupJ (fields : List (List Nat × JVal)) (key : List Nat) : Option JVal :=
  match fields with
  | [] => none
  | (k, v) :: rest => match lookupJ rest key with
    | some w => some w
    | none => if k = key then some v else none

/-- The dict accesses `pending["proxy_url"]`,
`pending["keypair"]["public_key"]` and
`pending["keypair"]["private_key"]` performed by
`handle_gateway_callback`; `none` models the `KeyError`/`TypeError`
caught by its outer `except`. -/
def pendingOfJVal : JVal → Option PendingData
  | JVal.jobj fields =>
    match lookupJ fields kProxyUrl, lookupJ fields kKeypair with
    | some (JVal.jstr pu), some (JVal.jobj kp) =>
      match lookupJ kp kPublicKey, lookupJ kp kPrivateKey with
      | some (JVal.jstr pk), some (JVal.jstr sk) =>
        some ⟨pu, ⟨pk, sk⟩⟩
      | _, _ => none
    | _, _ => none
  | _ => none

/-! ### Round-trip lemmas for the JSON layer -/

theorem hexVal_hexDigit : ∀ d < 16, hexVal (hexDigit d) = some d := by decide

theorem parseHex4_hex4 (n : Nat) (hn : n < 0x10000) (t : List Nat) :
    parseHex4 (hex4 n ++ t) = some (n, t) := by
  have e1 : hexVal (hexDigit (n / 4096 % 16)) = some (n / 4096 % 16) :=
    hexVal_hexDigit _ (by omega)
  have e2 : hexVal (hexDigit (n / 256 % 16)) = some (n / 256 % 16) :=
    hexVal_hexDigit _ (by omega)
  have e3 : hexVal (hexDigit (n / 16 % 16)) = some (n / 16 % 16) :=
    hexVal_hexDigit _ (by omega)
  have e4 : hexVal (hexDigit (n % 16)) = some (n % 16) :=
    hexVal_hexDigit _ (by omega)
  have hcode : ((n / 4096 % 16 * 16 + n / 256 % 16) * 16 + n / 16 % 16) *
      16 + n % 16 = n := by omega
  simp [hex4, parseHex4, e1, e2, e3, e4, hcode]

theorem parseUEscape_single (n : Nat) (hn : n < 0x10000)
    (hns : ¬(0xD800 ≤ n ∧ n < 0xDC00)) (t : List Nat) :
    parseUEscape (hex4 n ++ t) = some (n, t) := by
  unfold parseUEscape
  rw [parseHex4_hex4 n hn]
  dsimp only
  rw [if_neg hns]

theorem parseUEscape_pair (hi lo : Nat) (hg1 : 0xD800 ≤ hi)
    (hg2 : hi < 0xDC00) (hg3 : 0xDC00 ≤ lo) (hg4 : lo < 0xE000)
    (t : List Nat) :
    parseUEscape (hex4 hi ++ (0x5C :: 0x75 :: (hex4 lo ++ t))) =
      some (0x10000 + (hi - 0xD800) * 0x400 + (lo - 0xDC00), t) := by
  unfold parseUEscape
  rw [parseHex4_hex4 hi (by omega)]
  dsimp only
  rw [if_pos ⟨hg1, hg2⟩]
  rw [parseHex4_hex4 lo (by omega)]
  dsimp only
  rw [if_pos ⟨hg3, hg4⟩]

theorem parseUnit_escapeChar (c : Nat) (hc : ValidScalar c)
    (t : List Nat) :
    parseUnit (escapeChar c ++ t) = some (StrUnit.chr c, t) := by
  obtain ⟨hlt, hsur⟩ := hc
  by_cases h1 : c = 0x22
  · subst h1; rfl
  by_cases h2 : c = 0x5C
  · subst h2; rfl
  by_cases h3 : c = 0x08
  · subst h3; rfl
  by_cases h4 : c = 0x09
  · subst h4; rfl
  by_cases h5 : c = 0x0A
  · subst h5; rfl
  by_cases h6 : c = 0x0C
  · subst h6; rfl
  by_cases h7 : c = 0x0D
  · subst h7; rfl
  by_cases h8 : c < 0x20
  · rw [escapeChar, if_neg h1, if_neg h2, if_neg h3, if_neg h4, if_neg h5,
        if_neg h6, if_neg h7, if_pos h8]
    show parseUnit (0x5C :: 0x75 :: (hex4 c ++ t)) = some (StrUnit.chr c, t)
    rw [show parseUnit (0x5C :: 0x75 :: (hex4 c ++ t)) =
          (parseUEscape (hex4 c ++ t)).map
            (fun p => (StrUnit.chr p.1, p.2)) from rfl]
    rw [parseUEscape_single c (by omega) (by omega)]
    rfl
  by_cases h9 : c ≤ 0x7E
  · rw [escapeChar, if_neg h1, if_neg h2, if_neg h3, if_neg h4, if_neg h5,
        if_neg h6, if_neg h7, if_neg h8, if_pos h9]
    rw [List.singleton_append]
    simp [parseUnit, h1, h2, h8]
  by_cases h10 : c < 0x10000
  · rw [escapeChar, if_neg h1, if_neg h2, if_neg h3, if_neg h4, if_neg h5,
        if_neg h6, if_neg h7, if_neg h8, if_neg h9, if_pos h10]
    show parseUnit (0x5C :: 0x75 :: (hex4 c ++ t)) = some (StrUnit.chr c, t)
    rw [show parseUnit (0x5C :: 0x75 :: (hex4 c ++ t)) =
          (parseUEscape (hex4 c ++ t)).map
            (fun p => (StrUnit.chr p.1, p.2)) from rfl]
    rw [parseUEscape_single c h10 (by omega)]
    rfl
  · rw [escapeChar, if_neg h1, if_neg h2, if_neg h3, if_neg h4, if_neg h5,
        if_neg h6, if_neg h7, if_neg h8, if_neg h9, if_neg h10]
    have hdiv : (c - 0x10000) / 0x400 < 0x400 := by omega
    have hmod : (c - 0x10000) % 0x400 < 0x400 := by omega
    set hi := 0xD800 + (c - 0x10000) / 0x400 with hhidef
    set lo := 0xDC00 + (c - 0x10000) % 0x400 with hlodef
    have hcomb : 0x10000 + (hi - 0xD800) * 0x400 + (lo - 0xDC00) = c := by
      omega
    rw [show (0x5C :: 0x75 :: hex4 hi ++ 0x5C :: 0x75 :: hex4 lo) ++ t =
          0x5C :: 0x75 :: (hex4 hi ++ (0x5C :: 0x75 :: (hex4 lo ++ t))) by
        simp]
    rw [show parseUnit
          (0x5C :: 0x75 :: (hex4 hi ++ (0x5C :: 0x75 :: (hex4 lo ++ t)))) =
          (parseUEscape (hex4 hi ++ (0x5C :: 0x75 :: (hex4 lo ++ t)))).map
            (fun p => (StrUnit.chr p.1, p.2)) from rfl]
    rw [parseUEscape_pair hi lo (by omega) (by omega) (by omega) (by omega)]
    rw [hcomb]
    rfl

theorem parseStringBody_escapeString (s : List Nat)
    (h : ∀ c ∈ s, ValidScalar c) (rest : List Nat) :
    ∀ fuel, s.length < fuel →
      parseStringBody fuel (escapeString s ++ 0x22 :: rest) =
        some (s, rest) := by
  induction s with
  | nil =>
    intro fuel hf
    match fuel, hf with
    | f + 1, _ => simp [parseStringBody, escapeString, parseUnit]
  | cons c cs ih =>
    intro fuel hf
    match fuel, hf with
    | f + 1, hf =>
      have hc : ValidScalar c := h c (by simp)
      rw [escapeString, List.append_assoc, parseStringBody,
          parseUnit_escapeChar c hc]
      dsimp only
      rw [ih (fun x hx => h x (by simp [hx])) f (by
        simp only [List.length_cons] at hf; omega)]
      rfl



theorem escapeChar_length_pos (c : Nat) : 1 ≤ (escapeChar c).length := by
  by_cases h1 : c = 0x22
  · simp [escapeChar, h1]
  by_cases h2 : c = 0x5C
  · simp [escapeChar, h1, h2]
  by_cases h3 : c = 0x08
  · simp [escapeChar, h1, h2, h3]
  by_cases h4 : c = 0x09
  · simp [escapeChar, h1, h2, h3, h4]
  by_cases h5 : c = 0x0A
  · simp [escapeChar, h1, h2, h3, h4, h5]
  by_cases h6 : c = 0x0C
  · simp [escapeChar, h1, h2, h3, h4, h5, h6]
  by_cases h7 : c = 0x0D
  · simp [escapeChar, h1, h2, h3, h4, h5, h6, h7]
  by_cases h8 : c < 0x20
  · simp [escapeChar, h1, h2, h3, h4, h5, h6, h7, h8, hex4]
  by_cases h9 : c ≤ 0x7E
  · simp [escapeChar, h1, h2, h3, h4, h5, h6, h7, h8, h9]
  by_cases h10 : c < 0x10000
  · simp [escapeChar, h1, h2, h3, h4, h5, h6, h7, h8, h9, h10, hex4]
  · simp [escapeChar, h1, h2, h3, h4, h5, h6, h7, h8, h9, h10, hex4]

theorem length_le_escapeString (s : List Nat) :
    s.length ≤ (escapeString s).length := by
  induction s with
  | nil => simp [escapeString]
  | cons c cs ih =>
    have := escapeChar_length_pos c
    simp only [escapeString, List.length_append, List.length_cons]
    omega

theorem strBound (s X : List Nat) :
    s.length < (escapeString s ++ 0x22 :: X).length + 1 := by
  have := length_le_escapeString s
  simp only [List.length_append, List.length_cons]
  omega

theorem skipWs_nonws (c : Nat) (R : List Nat)
    (h : ¬(c = 0x20 ∨ c = 0x09 ∨ c = 0x0A ∨ c = 0x0D)) :
    skipWs (c :: R) = c :: R := by
  rw [skipWs, if_neg h]

theorem skipWs_sp (R : List Nat) : skipWs (0x20 :: R) = skipWs R := by
  rw [skipWs, if_pos (Or.inl rfl)]

theorem parseVal_ws (f : Nat) (Y : List Nat) :
    parseVal (f + 1) (0x20 :: Y) = parseVal (f + 1) Y := by
  rw [parseVal, parseVal, skipWs_sp]

theorem parseFields_ws (f : Nat) (Y : List Nat) :
    parseFields (f + 1) (0x20 :: Y) = parseFields (f + 1) Y := by
  rw [parseFields, parseFields, skipWs_sp]

theorem parseVal_Q (s : List Nat) (h : ∀ c ∈ s, ValidScalar c)
    (X : List Nat) (f : Nat) :
    parseVal (f + 1) (Q s X) = some (JVal.jstr s, X) := by
  rw [Q, parseVal, skipWs_nonws _ _ (by decide)]
  dsimp only
  rw [parseStringBody_escapeString s h X _ (strBound s X)]
  rfl

theorem parseVal_brace (f : Nat) (s X : List Nat) :
    parseVal (f + 1) (0x7B :: Q s X) =
      (parseFields f (Q s X)).map (fun p => (JVal.jobj p.1, p.2)) := by
  rw [parseVal, skipWs_nonws _ _ (by decide)]
  dsimp only
  rw [Q, skipWs_nonws _ _ (by decide)]

theorem parseFields_cons_str (k v : List Nat)
    (hk : ∀ c ∈ k, ValidScalar c) (hv : ∀ c ∈ v, ValidScalar c)
    (Y : List Nat) (f : Nat) :
    parseFields (f + 2) (Q k (0x3A :: 0x20 :: Q v (0x2C :: 0x20 :: Y))) =
      (parseFields (f + 1) Y).map
        (fun q => ((k, JVal.jstr v) :: q.1, q.2)) := by
  rw [show f + 2 = (f + 1) + 1 from rfl, Q, parseFields,
      skipWs_nonws _ _ (by decide)]
  dsimp only
  rw [parseStringBody_escapeString k hk _ _ (strBound k _)]
  dsimp only
  rw [skipWs_nonws _ _ (by decide)]
  dsimp only
  rw [parseVal_ws, parseVal_Q v hv _ f]
  dsimp only
  rw [skipWs_nonws _ _ (by decide)]
  dsimp only
  rw [parseFields_ws]

theorem parseFields_last_str (k v : List Nat)
    (hk : ∀ c ∈ k, ValidScalar c) (hv : ∀ c ∈ v, ValidScalar c)
    (X : List Nat) (f : Nat) :
    parseFields (f + 2) (Q k (0x3A :: 0x20 :: Q v (0x7D :: X))) =
      some ([(k, JVal.jstr v)], X) := by
  rw [show f + 2 = (f + 1) + 1 from rfl, Q, parseFields,
      skipWs_nonws _ _ (by decide)]
  dsimp only
  rw [parseStringBody_escapeString k hk _ _ (strBound k _)]
  dsimp only
  rw [skipWs_nonws _ _ (by decide)]
  dsimp only
  rw [parseVal_ws, parseVal_Q v hv _ f]
  dsimp only
  rw [skipWs_nonws _ _ (by decide)]

theorem parseFields_last_obj (k : List Nat)
    (hk : ∀ c ∈ k, ValidScalar c) (s X : List Nat) (f : Nat)
    (W : List (List Nat × JVal)) (Z : List Nat)
    (hinner : parseFields f (Q s X) = some (W, 0x7D :: Z)) :
    parseFields (f + 2) (Q k (0x3A :: 0x20 :: 0x7B :: Q s X)) =
      some ([(k, JVal.jobj W)], Z) := by
  rw [show f + 2 = (f + 1) + 1 from rfl, Q, parseFields,
      skipWs_nonws _ _ (by decide)]
  dsimp only
  rw [parseStringBody_escapeString k hk _ _ (strBound k _)]
  dsimp only
  rw [skipWs_nonws _ _ (by decide)]
  dsimp only
  rw [parseVal_ws, parseVal_brace f s X, hinner]
  have hws : skipWs (0x7D :: Z) = 0x7D :: Z := skipWs_nonws _ _ (by decide)
  simp [hws]

theorem kProxyUrl_valid : ∀ c ∈ kProxyUrl, ValidScalar c := by decide

theorem kKeypair_valid : ∀ c ∈ kKeypair, ValidScalar c := by decide

theorem kPublicKey_valid : ∀ c ∈ kPublicKey, ValidScalar c := by decide

theorem kPrivateKey_valid : ∀ c ∈ kPrivateKey, ValidScalar c := by decide

theorem parseVal_dumpsPending (p : PendingData)
    (h1 : ∀ c ∈ p.proxy_url, ValidScalar c)
    (h2 : ∀ c ∈ p.keypair.public_key, ValidScalar c)
    (h3 : ∀ c ∈ p.keypair.private_key, ValidScalar c) (m : Nat) :
    parseVal (m + 7) (dumpsPending p) = some (jvalOfPending p, []) := by
  have hinner : parseFields (m + 3)
      (Q kPublicKey (0x3A :: 0x20 ::
        Q p.keypair.public_key (0x2C :: 0x20 ::
          Q kPrivateKey (0x3A :: 0x20 ::
            Q p.keypair.private_key (0x7D :: [0x7D]))))) =
      some ([(kPublicKey, JVal.jstr p.keypair.public_key),
             (kPrivateKey, JVal.jstr p.keypair.private_key)],
            0x7D :: []) := by
    rw [show m + 3 = (m + 1) + 2 from rfl,
        parseFields_cons_str kPublicKey p.keypair.public_key
          kPublicKey_valid h2]
    rw [show m + 1 + 1 = m + 2 from rfl,
        parseFields_last_str kPrivateKey p.keypair.private_key
          kPrivateKey_valid h3]
    rfl
  rw [dumpsPending, show m + 7 = (m + 6) + 1 from rfl, parseVal_brace]
  rw [show m + 6 = (m + 4) + 2 from rfl,
      parseFields_cons_str kProxyUrl p.proxy_url kProxyUrl_valid h1]
  rw [show m + 4 + 1 = (m + 3) + 2 from rfl,
      parseFields_last_obj kKeypair kKeypair_valid _ _ (m + 3) _ []
        hinner]
  rfl

theorem jsonLoads_dumpsPending (p : PendingData)
    (h1 : ∀ c ∈ p.proxy_url, ValidScalar c)
    (h2 : ∀ c ∈ p.keypair.public_key, ValidScalar c)
    (h3 : ∀ c ∈ p.keypair.private_key, ValidScalar c) :
    jsonLoads (dumpsPending p) = some (jvalOfPending p) := by
  have hlen : 7 ≤ (dumpsPending p).length := by
    simp only [dumpsPending, Q, List.length_cons, List.length_append]
    omega
  rw [jsonLoads]
  rw [show (dumpsPending p).length + 1 =
        ((dumpsPending p).length - 6) + 7 by omega]
  rw [parseVal_dumpsPending p h1 h2 h3]
  rfl


theorem hexDigit_lt : ∀ d < 16, hexDigit d < 128 := by decide

theorem mem_hex4_lt (n x : Nat) (hx : x ∈ hex4 n) : x < 128 := by
  simp only [hex4, List.mem_cons, List.not_mem_nil, or_false] at hx
  rcases hx with rfl | rfl | rfl | rfl
  · exact hexDigit_lt _ (by omega)
  · exact hexDigit_lt _ (by omega)
  · exact hexDigit_lt _ (by omega)
  · exact hexDigit_lt _ (by omega)

theorem mem_escapeChar_lt (c x : Nat) (hx : x ∈ escapeChar c) :
    x < 128 := by
  unfold escapeChar at hx
  by_cases h1 : c = 0x22
  · simp [h1] at hx; omega
  by_cases h2 : c = 0x5C
  · simp [h1, h2] at hx; omega
  by_cases h3 : c = 0x08
  · simp [h1, h2, h3] at hx; omega
  by_cases h4 : c = 0x09
  · simp [h1, h2, h3, h4] at hx; omega
  by_cases h5 : c = 0x0A
  · simp [h1, h2, h3, h4, h5] at hx; omega
  by_cases h6 : c = 0x0C
  · simp [h1, h2, h3, h4, h5, h6] at hx; omega
  by_cases h7 : c = 0x0D
  · simp [h1, h2, h3, h4, h5, h6, h7] at hx; omega
  by_cases h8 : c < 0x20
  · simp only [h1, h2, h3, h4, h5, h6, h7, h8, if_false, if_true,
        List.mem_cons, if_neg, if_pos] at hx
    rcases hx with rfl | hx
    · omega
    · rcases hx with rfl | hx
      · omega
      · exact mem_hex4_lt c x hx
  by_cases h9 : c ≤ 0x7E
  · simp [h1, h2, h3, h4, h5, h6, h7, h8, h9] at hx; omega
  by_cases h10 : c < 0x10000
  · simp only [h1, h2, h3, h4, h5, h6, h7, h8, h9, h10, if_false, if_true,
        List.mem_cons, if_neg, if_pos] at hx
    rcases hx with rfl | hx
    · omega
    · rcases hx with rfl | hx
      · omega
      · exact mem_hex4_lt c x hx
  · simp only [h1, h2, h3, h4, h5, h6, h7, h8, h9, h10, if_false,
        List.cons_append, List.mem_cons, List.mem_append] at hx
    rcases hx with rfl | rfl | hx | rfl | rfl | hx
    · omega
    · omega
    · exact mem_hex4_lt _ x hx
    · omega
    · omega
    · exact mem_hex4_lt _ x hx

theorem mem_escapeString_lt (s : List Nat) (x : Nat)
    (hx : x ∈ escapeString s) : x < 128 := by
  induction s with
  | nil => simp [escapeString] at hx
  | cons c cs ih =>
    simp only [escapeString, List.mem_append] at hx
    rcases hx with hx | hx
    · exact mem_escapeChar_lt c x hx
    · exact ih hx

theorem mem_Q_lt (s X : List Nat) (hX : ∀ y ∈ X, y < 128) :
    ∀ y ∈ Q s X, y < 128 := by
  intro y hy
  simp only [Q, List.mem_cons, List.mem_append] at hy
  rcases hy with rfl | hy
  · omega
  · rcases hy with hy | hy
    · exact mem_escapeString_lt s y hy
    · rcases hy with rfl | hy
      · omega
      · exact hX y hy

theorem mem_dumpsPending_lt (p : PendingData) :
    ∀ y ∈ dumpsPending p, y < 128 := by
  intro y hy
  rw [dumpsPending] at hy
  rcases List.mem_cons.mp hy with rfl | hy
  · omega
  refine mem_Q_lt _ _ ?_ y hy
  intro y hy
  rcases List.mem_cons.mp hy with rfl | hy
  · omega
  rcases List.mem_cons.mp hy with rfl | hy
  · omega
  refine mem_Q_lt _ _ ?_ y hy
  intro y hy
  rcases List.mem_cons.mp hy with rfl | hy
  · omega
  rcases List.mem_cons.mp hy with rfl | hy
  · omega
  refine mem_Q_lt _ _ ?_ y hy
  intro y hy
  rcases List.mem_cons.mp hy with rfl | hy
  · omega
  rcases List.mem_cons.mp hy with rfl | hy
  · omega
  rcases List.mem_cons.mp hy with rfl | hy
  · omega
  refine mem_Q_lt _ _ ?_ y hy
  intro y hy
  rcases List.mem_cons.mp hy with rfl | hy
  · omega
  rcases List.mem_cons.mp hy with rfl | hy
  · omega
  refine mem_Q_lt _ _ ?_ y hy
  intro y hy
  rcases List.mem_cons.mp hy with rfl | hy
  · omega
  rcases List.mem_cons.mp hy with rfl | hy
  · omega
  refine mem_Q_lt _ _ ?_ y hy
  intro y hy
  rcases List.mem_cons.mp hy with rfl | hy
  · omega
  rcases List.mem_cons.mp hy with rfl | hy
  · omega
  refine mem_Q_lt _ _ ?_ y hy
  intro y hy
  rcases List.mem_cons.mp hy with rfl | hy
  · omega
  simp at hy
  omega

/-- A pending-state dict is well formed when its three strings consist of
Unicode scalar values, as every Python string obtained from well-formed
text does. -/
def WfPending (p : PendingData) : Prop :=
  (∀ c ∈ p.proxy_url, ValidScalar c) ∧
  (∀ c ∈ p.keypair.public_key, ValidScalar c) ∧
  (∀ c ∈ p.keypair.private_key, ValidScalar c)

instance (p : PendingData) : Decidable (WfPending p) := by
  unfold WfPending; infer_instance

theorem decode_encode_state (p : PendingData) (hp : WfPending p) :
    _decode_state (_encode_state p) = some (jvalOfPending p) := by
  obtain ⟨h1, h2, h3⟩ := hp
  have hd128 := mem_dumpsPending_lt p
  have hd256 : ∀ y ∈ dumpsPending p, y < 256 := by
    intro y hy
    have := hd128 y hy
    omega
  rw [_encode_state, _decode_state,
      utf8Encode_ascii _ (mem_b64encode_lt _ hd256), Option.some_bind,
      b64decode_b64encode _ hd256, Option.some_bind,
      utf8Decode_ascii _ hd128, Option.some_bind]
  exact jsonLoads_dumpsPending p h1 h2 h3


/-! ### Gateway session layer (src/components/gateway.py) -/

/-- A granted resource as fetched from the proxy: provider name, resource
type and model list (§3 ResourceGrant).  The `models` attribute is read
with a `getattr` default in the source, so it is always list-valued
here. -/
structure ResourceGrant where
  provider : String
  type : String
  models : List String
deriving DecidableEq

/-- Modelled from the spec: the SDK Session object (§3): app identity,
proxy endpoint, keypair, expiry timestamp and the fetched resource
catalog. -/
structure Session where
  app_id : String
  proxy_url : List Nat
  keypair : KeyPair
  expires_at : Nat
  resources : List ResourceGrant
deriving DecidableEq

/-- Modelled from the spec: the SDK `Session.is_expired`; a Session is
valid iff `now < expiresAt` (§3 invariant), so it is expired iff
`expiresAt ≤ now`. -/
def Session.is_expired (s : Session) (now : Nat) : Bool :=
  s.expires_at ≤ now

/-- Modelled from the spec: the SDK `Session.get_resources_by_type`
(§4.5 `resourcesByType`): filter the catalog by type, preserving fetch
order. -/
def Session.get_resources_by_type (s : Session) (t : String) :
    List ResourceGrant :=
  s.resources.filter (fun r => r.type == t)

/-- The redirect query parameters read by `handle_gateway_callback`:
`status`, `app_id`, `expires_at` and the `state` blob.  `expires_at` is
carried already parsed to a timestamp (the SDK `handle_callback` owns
that parsing, per §6). -/
structure QueryParams where
  status : Option String
  app_id : Option String
  expires_at : Option Nat
  state : Option (List Nat)
deriving DecidableEq

/-- Result of `st.query_params.clear()`: no parameters left. -/
def QueryParams.clear : QueryParams := ⟨none, none, none, none⟩

/-- The Streamlit session state touched by the gateway component:
`gateway_session`, `gateway_pending`, `gateway_error` plus the current
query parameters. -/
structure GatewayState where
  gateway_session : Option Session
  gateway_pending : Option PendingData
  gateway_error : Option String
  query_params : QueryParams
deriving DecidableEq

/-- Python truthiness of an optional string (`if app_id:`): present and
non-empty. -/
def truthyOptStr : Option String → Bool
  | some s => !s.isEmpty
  | none => false

/-- The numeric value of a big-endian list of decimal digit values. -/
def natOfDigitsAux : Nat → List Nat → Nat
  | acc, [] => acc
  | acc, d :: rest => natOfDigitsAux (acc * 10 + d) rest

/-- The numeric value of a decimal digit list. -/
def natOfDigits (ds : List Nat) : Nat := natOfDigitsAux 0 ds

/-- Python truthiness of a float-typed JSON number.  `float(lit)` is
falsy exactly when it rounds to (-)0.0: when every mantissa digit is 0,
or when the magnitude is at most 2 ^ (-1075) — half the smallest
subnormal double, which ties-to-even rounding sends to zero.  Writing
the magnitude as `M * 10 ^ E` with `M` the mantissa digits as an
integer of `d` significant digits and `E` the effective decimal
exponent, `10 ^ 323 < 2 ^ 1075 < 10 ^ 324` confines the boundary to
`-E = d + 323`, where the exact comparison is taken; the sign never
affects truthiness. -/
def floatTruthy (intD fracD : List Nat) (ex : Option (Bool × List Nat)) :
    Bool :=
  let M := natOfDigits (intD ++ fracD)
  if M = 0 then false
  else
    let ev : Int := match ex with
      | none => 0
      | some (sgn, ds) =>
        if sgn then -(natOfDigits ds : Int) else (natOfDigits ds : Int)
    let E : Int := ev - fracD.length
    if 0 ≤ E then true
    else
      let q := (-E).toNat
      let d := ((intD ++ fracD).dropWhile (fun x => x = 0)).length
      if d + 324 ≤ q then false
      else if q ≤ d + 322 then true
      else decide (10 ^ q < M * 2 ^ 1075)

/-- Python truthiness of a decoded JSON value (`if not pending:`):
non-empty strings, dicts and lists are truthy; `false`, `null` and
numeric zero (an all-zero-digit int, or a float literal that rounds to
0.0) are falsy; NaN and the infinities are truthy. -/
def truthyJ : JVal → Bool
  | JVal.jstr s => !s.isEmpty
  | JVal.jobj l => !l.isEmpty
  | JVal.jarr l => !l.isEmpty
  | JVal.jnum _ intD fracD ex =>
    match ex, fracD with
    | none, [] => intD.any (fun d => d != 0)
    | _, _ => floatTruthy intD fracD ex
  | JVal.jbool b => b
  | JVal.jnull => false
  | JVal.jinf _ => true
  | JVal.jnan => true

/-- Modelled from the spec: the SDK `handle_callback` derives a
CallbackResult (§3) from the redirect parameters; `approved` reflects
`status == "approved"`. -/
structure CallbackResult where
  approved : Bool
  app_id : String
  expires_at : Nat
deriving DecidableEq

/-- Modelled from the spec: the SDK `handle_callback`. -/
def handle_callback (status : Option String) (app_id : String)
    (expires_at : Option Nat) : CallbackResult :=
  ⟨status == some "approved", app_id, expires_at.getD 0⟩

/-- Modelled from the spec: the SDK `create_session` builds the Session
record from proxy endpoint, app id, keypair and expiry;
`fetch_resources=True` attaches the proxy's granted-resource catalog,
passed here as the `resources` parameter (the signed fetch itself is the
external transport of §6). -/
def create_session (proxy_url : List Nat) (app_id : String)
    (keypair : KeyPair) (expires_at : Nat)
    (resources : List ResourceGrant) : Session :=
  ⟨app_id, proxy_url, keypair, expires_at, resources⟩

/-- The user-facing message set on a denied callback. -/
def gateway_denied_message : String :=
  "Connection was denied by the gateway owner."

/-- Modelled from the spec: the stringified exception stored in
`gateway_error` when the decoded state dict lacks the expected keys
(§7: callback errors are absorbed into a status string). -/
def pending_access_error : String := "KeyError"

/-- The `pending` value after the handler's decode step: `None` when the
`state` parameter is absent or falsy or `_decode_state` raises, else the
decoded JSON value. -/
def decoded_pending (params : QueryParams) : Option JVal :=
  match params.state with
  | some s => if s.isEmpty then none else _decode_state s
  | none => none

/-- Model of `handle_gateway_callback` (gateway.py).  The proxy's
response to the signed resource fetch is the `catalog` parameter; all
other behavior follows the source: an `approved` status with a truthy
`app_id` decodes the `state` blob from the URL, builds a Session and
clears pending state and query parameters; a `denied` status records the
denial message; anything else does nothing. -/
def handle_gateway_callback (st : GatewayState)
    (catalog : List ResourceGrant) : GatewayState :=
  let params := st.query_params
  if params.status = some "approved" ∧ truthyOptStr params.app_id then
    match decoded_pending params with
    | none => { st with query_params := QueryParams.clear }
    | some v =>
      if truthyJ v = false then { st with query_params := QueryParams.clear }
      else
        let cb := handle_callback params.status (params.app_id.getD "")
          params.expires_at
        if cb.approved then
          match pendingOfJVal v with
          | none =>
            { st with gateway_error := some pending_access_error,
                      query_params := QueryParams.clear }
          | some p =>
            { st with
              gateway_session := some (create_session p.proxy_url cb.app_id
                p.keypair cb.expires_at catalog),
              gateway_pending := none,
              gateway_error := none,
              query_params := QueryParams.clear }
        else st
  else if params.status = some "denied" then
    { st with gateway_error := some gateway_denied_message,
              gateway_pending := none,
              query_params := QueryParams.clear }
  else st

/-- Model of `app_url.rstrip("/")`. -/
def rstrip_slash (s : List Nat) : List Nat :=
  (s.reverse.dropWhile (fun c => c = 0x2F)).reverse

/-- Codepoints of the literal text `/?state=` used to build the
callback URL. -/
def state_marker : List Nat :=
  [0x2F, 0x3F, 0x73, 0x74, 0x61, 0x74, 0x65, 0x3D]

/-- The redirect-back URL built by `_initiate_connection`:
`app_url.rstrip("/") + "/?state=" + encoded_state`. -/
def callback_url (app_url : List Nat) (p : PendingData) : List Nat :=
  rstrip_slash app_url ++ state_marker ++ _encode_state p

/-- Model of `get_gateway_models` (gateway.py): the display strings for
the llm-typed grants of a live session, or the empty list when the
session is absent or expired. -/
def get_gateway_models (st : GatewayState) (now : Nat) : List String :=
  match st.gateway_session with
  | none => []
  | some session =>
    if session.is_expired now then []
    else (session.get_resources_by_type "llm").map
      (fun r => "Gateway: " ++ r.provider)

/-- Model of `is_gateway_connected`: both the gateway.py version and the
identically-checking llms.py version (which merely adds a broad
`except` around the same reads). -/
def is_gateway_connected (st : GatewayState) (now : Nat) : Bool :=
  match st.gateway_session with
  | none => false
  | some session => !session.is_expired now

/-- Model of `get_gateway_client` (gateway.py and the identical llms.py
variant): `GatewayClient.from_session` wraps the session's fields
read-only, modelled as the session itself. -/
def get_gateway_client (st : GatewayState) (now : Nat) : Option Session :=
  match st.gateway_session with
  | none => none
  | some session =>
    if session.is_expired now then none else some session


/-! ### LLM resolution layer (src/interfaces/llms.py) -/

/-- The linear scan inside `LLM._get_gateway_provider`: first llm grant
whose model list contains the requested name wins. -/
def providerScan : List ResourceGrant → String → Option String
  | [], _ => none
  | r :: rest, m =>
    if r.models.contains m then some r.provider else providerScan rest m

/-- Model of `LLM._get_gateway_provider`: look the model name up in the
active session's llm-typed grants, in catalog order. -/
def LLM_get_gateway_provider (st : GatewayState) (model_name : String) :
    Option String :=
  match st.gateway_session with
  | none => none
  | some session =>
    providerScan (session.get_resources_by_type "llm") model_name

/-- The registered `LLM` subclasses, in definition order (the order
`__subclasses__()` yields and `model_map` preserves; `GatewayLLM` has an
empty model list and contributes nothing). -/
inductive ProviderClass where
  | GPT | Claude | GroqLLM | Gemini | Grok
deriving DecidableEq

/-- Model of `LLM.model_map()`: each subclass's `model_names` entries in
subclass definition order. -/
def model_map : List (String × ProviderClass) :=
  [("gpt-5-nano", ProviderClass.GPT),
   ("claude-haiku-4-5", ProviderClass.Claude),
   ("openai/gpt-oss-120b", ProviderClass.GroqLLM),
   ("gemini-2.5-flash-lite", ProviderClass.Gemini),
   ("grok-4-fast", ProviderClass.Grok)]

/-- A single-quote character, written by codepoint. -/
def sq : String := String.mk [Char.ofNat 39]

/-- Python `repr` of a list of plain strings, as `f"{list(...)}"`
renders it. -/
def pyStrList (l : List String) : String :=
  "[" ++ String.intercalate ", " (l.map (fun s => sq ++ s ++ sq)) ++ "]"

/-- The `KeyError` message raised by `LLM.for_model_name` for an unknown
model. -/
def key_error_message (name : String) : String :=
  "Model " ++ sq ++ name ++ sq ++ " not found. Available: " ++
    pyStrList (model_map.map (fun kv => kv.1))

/-- The value `LLM.for_model_name` produces: a gateway-routed instance
or a direct provider instance. -/
inductive LLMInstance where
  | gateway : String → String → LLMInstance
  | direct : ProviderClass → String → LLMInstance
deriving DecidableEq

/-- The direct-API fallback inside `LLM.for_model_name`: instantiate the
mapped subclass or raise `KeyError` (modelled as `Except.error`). -/
def for_model_name_direct (name : String) : Except String LLMInstance :=
  match model_map.find? (fun kv => kv.1 == name) with
  | some kv => Except.ok (LLMInstance.direct kv.2 name)
  | none => Except.error (key_error_message name)

/-- Model of `LLM.for_model_name`: gateway routing when connected and a
truthy provider matches (`if provider:` — a present-but-empty provider
string falls through), otherwise the direct mapping. -/
def LLM_for_model_name (st : GatewayState) (now : Nat) (name : String) :
    Except String LLMInstance :=
  if is_gateway_connected st now then
    match LLM_get_gateway_provider st name with
    | some provider =>
      if provider.isEmpty then for_model_name_direct name
      else Except.ok (LLMInstance.gateway name provider)
    | none => for_model_name_direct name
  else for_model_name_direct name

/-- The fields of a `GatewayLLM` relevant to its `send` contract: the
gateway client is captured from session state at construction time (see
the class docstring: worker threads cannot read session state). -/
structure GatewayLLMData where
  model_name : String
  provider : String
  _gateway_client : Option Session
deriving DecidableEq

/-- Model of `GatewayLLM.__init__`: captures the client now, from the
construction-time clock. -/
def GatewayLLM_init (st : GatewayState) (now : Nat)
    (model_name provider : String) : GatewayLLMData :=
  ⟨model_name, provider, get_gateway_client st now⟩

/-- Outcome of `GatewayLLM.send`: the proxy response content, the
`RuntimeError` raised when no client was captured, or a re-raised
transport exception. -/
inductive SendOutcome where
  | ok : String → SendOutcome
  | runtime_error : SendOutcome
  | transport_error : String → SendOutcome
deriving DecidableEq

/-- Model of `GatewayLLM.send`.  The call-time clock `now` and the
proxy's outcome for this request are passed in; the source checks only
whether a client was captured at construction — `now` is never
consulted — and re-raises any transport exception after logging. -/
def GatewayLLM_send (llm : GatewayLLMData) (now : Nat)
    (proxy_result : Except String String) : SendOutcome :=
  match llm._gateway_client with
  | none => SendOutcome.runtime_error
  | some _ =>
    match proxy_result with
    | Except.ok content => SendOutcome.ok content
    | Except.error e => SendOutcome.transport_error e


/-! ### General handler lemmas (shared by several claim theorems) -/

theorem truthyOptStr_some (a : String) (ha : a ≠ "") :
    truthyOptStr (some a) = true := by
  have h : a.isEmpty = false := by
    by_contra hh
    rw [Bool.not_eq_false, String.isEmpty_iff] at hh
    exact ha hh
  simp [truthyOptStr, h]

theorem handle_approved_spec (st : GatewayState)
    (cat : List ResourceGrant) (a : String) (v : JVal) (p : PendingData)
    (hstatus : st.query_params.status = some "approved")
    (happ : st.query_params.app_id = some a) (ha : a ≠ "")
    (hdec : decoded_pending st.query_params = some v)
    (htr : truthyJ v = true)
    (hp : pendingOfJVal v = some p) :
    handle_gateway_callback st cat =
      { st with
        gateway_session := some (create_session p.proxy_url a p.keypair
          (st.query_params.expires_at.getD 0) cat),
        gateway_pending := none,
        gateway_error := none,
        query_params := QueryParams.clear } := by
  unfold handle_gateway_callback
  simp [hstatus, happ, hdec, htr, hp, truthyOptStr_some a ha,
        handle_callback]

theorem handle_stale_spec (st : GatewayState) (cat : List ResourceGrant)
    (hstatus : st.query_params.status = some "approved")
    (happ : truthyOptStr st.query_params.app_id = true)
    (hdec : ∀ v, decoded_pending st.query_params = some v →
      truthyJ v = false) :
    handle_gateway_callback st cat =
      { st with query_params := QueryParams.clear } := by
  unfold handle_gateway_callback
  rw [if_pos ⟨hstatus, happ⟩]
  cases hd : decoded_pending st.query_params with
  | none => rfl
  | some v => simp [hdec v hd]

theorem handle_noact_spec (st : GatewayState) (cat : List ResourceGrant)
    (h1 : ¬(st.query_params.status = some "approved" ∧
      truthyOptStr st.query_params.app_id))
    (h2 : st.query_params.status ≠ some "denied") :
    handle_gateway_callback st cat = st := by
  unfold handle_gateway_callback
  rw [if_neg h1, if_neg h2]

theorem handle_denied_spec (st : GatewayState) (cat : List ResourceGrant)
    (hd : st.query_params.status = some "denied") :
    handle_gateway_callback st cat =
      { st with gateway_error := some gateway_denied_message,
                gateway_pending := none,
                query_params := QueryParams.clear } := by
  have hne : ¬(st.query_params.status = some "approved" ∧
      truthyOptStr st.query_params.app_id) := by
    rintro ⟨h, -⟩
    rw [hd] at h
    simp at h
  unfold handle_gateway_callback
  rw [if_neg hne, if_pos hd]


/-- A sample pending state: proxy url `p`, public key `a`, private key
`b` (as codepoint lists). -/
def samplePending : PendingData := ⟨[112], ⟨[97], [98]⟩⟩

/-- A sample granted resource. -/
def sampleGrant : ResourceGrant := ⟨"openai", "llm", ["gpt-4o"]⟩

/-- The dict accesses recover exactly the original pending record from
its JSON value. -/
theorem pendingOfJVal_jvalOfPending (p : PendingData) :
    pendingOfJVal (jvalOfPending p) = some p := rfl

/-- The pending dict of any PendingState is a non-empty dict, hence
truthy. -/
theorem truthyJ_jvalOfPending (p : PendingData) :
    truthyJ (jvalOfPending p) = true := rfl


/-! ### Claim theorems -/

/-- C1: a callback whose query parameters carry `status=approved`, a
non-empty `app_id`, and a non-empty `state` blob that decodes — through
the modelled pipeline of UTF-8 encoding, lenient URL-safe base64,
strict UTF-8 decoding and JSON parsing — to the pending dict of a
PendingState `p` builds a Session from the decoded proxy endpoint and
keypair together with the fetched resource catalog, stores it as the
active session, clears the stored PendingState, and clears the redirect
query parameters. -/
theorem C1_approved_builds_session (st : GatewayState)
    (cat : List ResourceGrant) (a : String) (blob : List Nat)
    (p : PendingData)
    (hstatus : st.query_params.status = some "approved")
    (happ : st.query_params.app_id = some a) (ha : a ≠ "")
    (hstate : st.query_params.state = some blob) (hblob : blob ≠ [])
    (hdec : _decode_state blob = some (jvalOfPending p)) :
    handle_gateway_callback st cat =
      { st with
        gateway_session := some (create_session p.proxy_url a p.keypair
          (st.query_params.expires_at.getD 0) cat),
        gateway_pending := none,
        gateway_error := none,
        query_params := QueryParams.clear } := by
  have hbe : blob.isEmpty = false := by
    cases blob with
    | nil => exact absurd rfl hblob
    | cons c cs => rfl
  have hdp : decoded_pending st.query_params = some (jvalOfPending p) := by
    unfold decoded_pending
    rw [hstate]
    simp [hbe, hdec]
  exact handle_approved_spec st cat a (jvalOfPending p) p hstatus happ ha
    hdp (truthyJ_jvalOfPending p) (pendingOfJVal_jvalOfPending p)

/-- A state carrying an approved callback for `samplePending`. -/
def c1State : GatewayState :=
  ⟨none, none, some "old error",
   ⟨some "approved", some "app-9", some 3600,
    some (_encode_state samplePending)⟩⟩

theorem C1_witness :
    handle_gateway_callback c1State [sampleGrant] =
      { c1State with
        gateway_session := some (create_session samplePending.proxy_url
          "app-9" samplePending.keypair
          (c1State.query_params.expires_at.getD 0) [sampleGrant]),
        gateway_pending := none,
        gateway_error := none,
        query_params := QueryParams.clear } :=
  C1_approved_builds_session c1State [sampleGrant] "app-9"
    (_encode_state samplePending) samplePending rfl rfl (by decide) rfl
    (by decide) rfl

/-- C4: a callback with `status=denied` records the user-facing
connection-denied message, clears any stored PendingState, clears the
redirect query parameters, and creates no Session. -/
theorem C4_denied_no_session (st : GatewayState)
    (cat : List ResourceGrant)
    (hd : st.query_params.status = some "denied") :
    handle_gateway_callback st cat =
      { st with gateway_error := some gateway_denied_message,
                gateway_pending := none,
                query_params := QueryParams.clear } ∧
    (handle_gateway_callback st cat).gateway_session =
      st.gateway_session := by
  have h := handle_denied_spec st cat hd
  exact ⟨h, by rw [h]⟩

/-- A state carrying a denied callback while a pairing is pending. -/
def c4State : GatewayState :=
  ⟨none, some samplePending, none,
   ⟨some "denied", some "app-9", none,
    some (_encode_state samplePending)⟩⟩

theorem C4_witness :
    handle_gateway_callback c4State [sampleGrant] =
      { c4State with gateway_error := some gateway_denied_message,
                     gateway_pending := none,
                     query_params := QueryParams.clear } ∧
    (handle_gateway_callback c4State [sampleGrant]).gateway_session =
      c4State.gateway_session :=
  C4_denied_no_session c4State [sampleGrant] rfl

/-- A state whose callback parameters carry no `status` at all but are
otherwise populated. -/
def c3State : GatewayState :=
  ⟨none, none, none, ⟨none, some "app-9", none, some [97]⟩⟩

/-- C3 as written is false: on a callback with no `status` parameter the
handler takes no action at all — in particular it does NOT clear the
redirect query parameters, which stay populated. -/
theorem C3_counterexample :
    handle_gateway_callback c3State [sampleGrant] = c3State ∧
    c3State.query_params ≠ QueryParams.clear := by
  constructor
  · exact handle_noact_spec c3State [sampleGrant] (by simp [c3State,
      truthyOptStr]) (by simp [c3State])
  · simp [c3State, QueryParams.clear]

/-- C3 (amended): when `status=approved` with a truthy `app_id` but the
PendingState cannot be recovered (state absent, undecodable, or falsy),
the handler clears the redirect parameters and takes no other action,
raising nothing; when `status` is absent or malformed (including
approved without an app id), the handler takes no action at all and the
redirect parameters are left in place. -/
theorem C3_amended_stale_and_noact :
    (∀ (st : GatewayState) (cat : List ResourceGrant),
      st.query_params.status = some "approved" →
      truthyOptStr st.query_params.app_id = true →
      (∀ v, decoded_pending st.query_params = some v →
        truthyJ v = false) →
      handle_gateway_callback st cat =
        { st with query_params := QueryParams.clear }) ∧
    (∀ (st : GatewayState) (cat : List ResourceGrant),
      ¬(st.query_params.status = some "approved" ∧
        truthyOptStr st.query_params.app_id) →
      st.query_params.status ≠ some "denied" →
      handle_gateway_callback st cat = st) :=
  ⟨fun st cat h1 h2 h3 => handle_stale_spec st cat h1 h2 h3,
   fun st cat h1 h2 => handle_noact_spec st cat h1 h2⟩

/-- A state whose approved callback carries no `state` blob. -/
def c3StaleState : GatewayState :=
  ⟨none, none, none, ⟨some "approved", some "app-9", some 3600, none⟩⟩

theorem C3_witness :
    handle_gateway_callback c3StaleState [sampleGrant] =
      { c3StaleState with query_params := QueryParams.clear } ∧
    handle_gateway_callback c3State [sampleGrant] = c3State :=
  ⟨C3_amended_stale_and_noact.1 c3StaleState [sampleGrant] rfl
      (by decide)
      (fun v h => Option.noConfusion h),
   C3_amended_stale_and_noact.2 c3State [sampleGrant]
      (by simp [c3State, truthyOptStr]) (by simp [c3State])⟩


/-- C5: for every PendingState dict — proxy endpoint plus keypair of
public and private key strings — decoding the encoded form returns
exactly the original dict: `_decode_state (_encode_state p)` is the JSON
value of `p`, and the handler's dict accesses recover `p` from it
unchanged. -/
theorem C5_encode_decode_roundtrip (p : PendingData) (hp : WfPending p) :
    _decode_state (_encode_state p) = some (jvalOfPending p) ∧
    pendingOfJVal (jvalOfPending p) = some p :=
  ⟨decode_encode_state p hp, pendingOfJVal_jvalOfPending p⟩

theorem C5_witness :
    _decode_state (_encode_state samplePending) =
      some (jvalOfPending samplePending) ∧
    pendingOfJVal (jvalOfPending samplePending) = some samplePending :=
  C5_encode_decode_roundtrip samplePending (by decide)

/-- C6: a Session is valid iff `now < expiresAt` (the spec-modelled
`is_expired` is its negation), and each of the session-reading
operations — model listing, connectivity check, client retrieval —
checks this before returning session-derived data, giving the
disconnected result (`[]`, `false`, `none`) for an absent or expired
session and the live result only for a valid one. -/
theorem C6_validity_checked_everywhere :
    (∀ (s : Session) (now : Nat),
      s.is_expired now = false ↔ now < s.expires_at) ∧
    (∀ (st : GatewayState) (now : Nat),
      (st.gateway_session = none ∨
        ∃ s, st.gateway_session = some s ∧ s.is_expired now = true) →
      get_gateway_models st now = [] ∧
      is_gateway_connected st now = false ∧
      get_gateway_client st now = none) ∧
    (∀ (st : GatewayState) (s : Session) (now : Nat),
      st.gateway_session = some s → s.is_expired now = false →
      is_gateway_connected st now = true ∧
      get_gateway_client st now = some s) := by
  refine ⟨?_, ?_, ?_⟩
  · intro s now
    simp [Session.is_expired]
  · intro st now h
    rcases h with h | ⟨s, hs, hexp⟩
    · simp [get_gateway_models, is_gateway_connected, get_gateway_client,
            h]
    · simp [get_gateway_models, is_gateway_connected, get_gateway_client,
            hs, hexp]
  · intro st s now hs hval
    simp [is_gateway_connected, get_gateway_client, hs, hval]

/-- A live session expiring at time 100. -/
def c6Session : Session := ⟨"app-9", [112], ⟨[97], [98]⟩, 100, [sampleGrant]⟩

/-- A state holding the live session. -/
def c6State : GatewayState := ⟨some c6Session, none, none, QueryParams.clear⟩

theorem C6_witness :
    (c6Session.is_expired 99 = false ↔ 99 < c6Session.expires_at) ∧
    (get_gateway_models c6State 100 = [] ∧
     is_gateway_connected c6State 100 = false ∧
     get_gateway_client c6State 100 = none) ∧
    (is_gateway_connected c6State 99 = true ∧
     get_gateway_client c6State 99 = some c6Session) :=
  ⟨C6_validity_checked_everywhere.1 c6Session 99,
   C6_validity_checked_everywhere.2.1 c6State 100
     (Or.inr ⟨c6Session, rfl, by decide⟩),
   C6_validity_checked_everywhere.2.2 c6State c6Session 99 rfl
     (by decide)⟩


/-- A session that expires at time 10. -/
def c7Session : Session := ⟨"app-9", [112], ⟨[97], [98]⟩, 10, [sampleGrant]⟩

/-- A state holding that session. -/
def c7State : GatewayState := ⟨some c7Session, none, none, QueryParams.clear⟩

/-- C7 as written is false: a `GatewayLLM` constructed at time 5 (while
the session is valid) and invoked at time 20 — after the session's
expiry at 10 — does not fail with an unauthenticated error; the captured
client is used and the proxy's response is returned. -/
theorem C7_counterexample :
    c7Session.expires_at ≤ 20 ∧
    GatewayLLM_send (GatewayLLM_init c7State 5 "gpt-4o" "openai") 20
      (Except.ok "resp") = SendOutcome.ok "resp" := by
  decide

/-- C7 (amended): session validity is checked at construction time only
— the gateway client is captured then, and `send` never consults the
call-time clock (its outcome is identical for any two call times); a
`send` on an instance constructed while disconnected or expired raises a
RuntimeError, and proxy transport failures are re-raised to the caller
while successful responses pass through. -/
theorem C7_amended_construction_time_check :
    (∀ (llm : GatewayLLMData) (r : Except String String) (n1 n2 : Nat),
      GatewayLLM_send llm n1 r = GatewayLLM_send llm n2 r) ∧
    (∀ (st : GatewayState) (now now2 : Nat) (m pr : String)
        (r : Except String String),
      get_gateway_client st now = none →
      GatewayLLM_send (GatewayLLM_init st now m pr) now2 r =
        SendOutcome.runtime_error) ∧
    (∀ (llm : GatewayLLMData) (now : Nat) (e : String),
      llm._gateway_client.isSome = true →
      GatewayLLM_send llm now (Except.error e) =
        SendOutcome.transport_error e) ∧
    (∀ (llm : GatewayLLMData) (now : Nat) (content : String),
      llm._gateway_client.isSome = true →
      GatewayLLM_send llm now (Except.ok content) =
        SendOutcome.ok content) := by
  refine ⟨?_, ?_, ?_, ?_⟩
  · intro llm r n1 n2
    rfl
  · intro st now now2 m pr r h
    simp [GatewayLLM_init, GatewayLLM_send, h]
  · intro llm now e h
    rcases hc : llm._gateway_client with _ | s
    · rw [hc] at h; simp at h
    · simp [GatewayLLM_send, hc]
  · intro llm now content h
    rcases hc : llm._gateway_client with _ | s
    · rw [hc] at h; simp at h
    · simp [GatewayLLM_send, hc]

/-- A state with no session at all. -/
def c7NoneState : GatewayState := ⟨none, none, none, QueryParams.clear⟩

theorem C7_witness :
    GatewayLLM_send (GatewayLLM_init c7State 5 "gpt-4o" "openai") 3
        (Except.ok "resp") =
      GatewayLLM_send (GatewayLLM_init c7State 5 "gpt-4o" "openai") 9000
        (Except.ok "resp") ∧
    GatewayLLM_send (GatewayLLM_init c7NoneState 5 "gpt-4o" "openai") 6
        (Except.ok "resp") = SendOutcome.runtime_error ∧
    GatewayLLM_send (GatewayLLM_init c7State 5 "gpt-4o" "openai") 6
        (Except.error "boom") = SendOutcome.transport_error "boom" ∧
    GatewayLLM_send (GatewayLLM_init c7State 5 "gpt-4o" "openai") 6
        (Except.ok "resp") = SendOutcome.ok "resp" :=
  ⟨C7_amended_construction_time_check.1 _ (Except.ok "resp") 3 9000,
   C7_amended_construction_time_check.2.1 c7NoneState 5 6 "gpt-4o"
     "openai" (Except.ok "resp") rfl,
   C7_amended_construction_time_check.2.2.1 _ 6 "boom" (by decide),
   C7_amended_construction_time_check.2.2.2 _ 6 "resp" (by decide)⟩


theorem providerScan_eq_find (l : List ResourceGrant) (m : String) :
    providerScan l m =
      (l.find? (fun r => r.models.contains m)).map ResourceGrant.provider
    := by
  induction l with
  | nil => rfl
  | cons r rest ih =>
    rw [providerScan, List.find?_cons]
    cases hc : r.models.contains m with
    | true => simp [hc]
    | false => simp [hc, ih]

theorem find_first_match (p : ResourceGrant → Bool) (l1 : List ResourceGrant)
    (g : ResourceGrant) (rest : List ResourceGrant)
    (h1 : ∀ x ∈ l1, p x = false) (hg : p g = true) :
    (l1 ++ g :: rest).find? p = some g := by
  induction l1 with
  | nil => simp [List.find?_cons, hg]
  | cons a t ih =>
    rw [List.cons_append, List.find?_cons, h1 a (by simp)]
    exact ih (fun x hx => h1 x (by simp [hx]))

/-- C8: the provider lookup is a linear scan over the llm-typed grants
of the active session in catalog order: it returns the provider of the
first grant whose model list contains the requested name, `none` when no
grant lists it, and — when two grants both list it — the earlier grant's
provider. -/
theorem C8_provider_first_match (st : GatewayState) (s : Session)
    (name : String) (hs : st.gateway_session = some s) :
    (LLM_get_gateway_provider st name =
      ((s.get_resources_by_type "llm").find?
        (fun r => r.models.contains name)).map ResourceGrant.provider) ∧
    ((∀ g ∈ s.get_resources_by_type "llm", name ∉ g.models) →
      LLM_get_gateway_provider st name = none) ∧
    (∀ (l1 l2 l3 : List ResourceGrant) (g1 g2 : ResourceGrant),
      s.get_resources_by_type "llm" = l1 ++ g1 :: (l2 ++ g2 :: l3) →
      name ∈ g1.models → name ∈ g2.models →
      (∀ g ∈ l1, name ∉ g.models) →
      LLM_get_gateway_provider st name = some g1.provider) := by
  have hbase : LLM_get_gateway_provider st name =
      ((s.get_resources_by_type "llm").find?
        (fun r => r.models.contains name)).map ResourceGrant.provider := by
    unfold LLM_get_gateway_provider
    rw [hs]
    exact providerScan_eq_find _ _
  refine ⟨hbase, ?_, ?_⟩
  · intro habs
    rw [hbase, List.find?_eq_none.mpr]
    · rfl
    · intro g hg
      simp [List.elem_iff, habs g hg]
  · intro l1 l2 l3 g1 g2 hsplit hg1 hg2 hl1
    rw [hbase, hsplit, find_first_match _ l1 g1 _
      (fun x hx => by simp [List.elem_iff, hl1 x hx])
      (by simp [List.elem_iff, hg1])]
    rfl

/-- A catalog in which two llm grants both list the model `m1`. -/
def c8Session : Session :=
  ⟨"app-9", [112], ⟨[97], [98]⟩, 100,
   [⟨"other", "tool", ["m1"]⟩,
    ⟨"openai", "llm", ["m0"]⟩,
    ⟨"groq", "llm", ["m1", "m2"]⟩,
    ⟨"gemini", "llm", ["m1"]⟩]⟩

/-- A state holding that session. -/
def c8State : GatewayState := ⟨some c8Session, none, none, QueryParams.clear⟩

theorem C8_witness :
    (LLM_get_gateway_provider c8State "m1" =
      ((c8Session.get_resources_by_type "llm").find?
        (fun r => r.models.contains "m1")).map ResourceGrant.provider) ∧
    LLM_get_gateway_provider c8State "zz" = none ∧
    LLM_get_gateway_provider c8State "m1" = some "groq" :=
  ⟨(C8_provider_first_match c8State c8Session "m1" rfl).1,
   (C8_provider_first_match c8State c8Session "zz" rfl).2.1 (by decide),
   (C8_provider_first_match c8State c8Session "m1" rfl).2.2
     [⟨"openai", "llm", ["m0"]⟩] [] []
     ⟨"groq", "llm", ["m1", "m2"]⟩ ⟨"gemini", "llm", ["m1"]⟩
     (by decide) (by decide) (by decide) (by decide)⟩


/-- The example application URL `http://localhost:8501` as codepoints. -/
def sampleAppUrl : List Nat :=
  [104, 116, 116, 112, 58, 47, 47, 108, 111, 99, 97, 108, 104, 111,
   115, 116, 58, 56, 53, 48, 49]

/-- C9 as written is false: the redirect-back URL built by
`_initiate_connection` carries the private key in a
recoverable-by-inspection form — dropping the URL prefix up to the
`state` parameter and applying plain base64 and JSON decoding yields the
whole pending dict, private key included, with no secret required. -/
theorem C9_counterexample :
    (_decode_state ((callback_url sampleAppUrl samplePending).drop
        29)).bind pendingOfJVal = some samplePending ∧
    samplePending.keypair.private_key = [98] := by
  decide

/-- C9 (amended): for every pairing attempt, the redirect-back URL sent
to the proxy does contain the private key, protected only by URL-safe
base64 over JSON: some suffix of the URL (the `state` query parameter)
decodes back to the full PendingState, private key included. -/
theorem C9_amended_key_recoverable (app_url : List Nat) (p : PendingData)
    (hp : WfPending p) :
    ∃ k, (_decode_state ((callback_url app_url p).drop k)).bind
      pendingOfJVal = some p := by
  refine ⟨(rstrip_slash app_url ++ state_marker).length, ?_⟩
  rw [callback_url, List.drop_left]
  rw [decode_encode_state p hp]
  rfl

theorem C9_witness :
    ∃ k, (_decode_state ((callback_url sampleAppUrl
        samplePending).drop k)).bind pendingOfJVal =
      some samplePending :=
  C9_amended_key_recoverable sampleAppUrl samplePending (by decide)

/-- A disconnected state for the direct-mapping fallback. -/
def c10State : GatewayState := ⟨none, none, none, QueryParams.clear⟩

/-- C10: when a model name is in no registered provider subclass's model
list and no gateway route applies, `LLM.for_model_name` raises a
`KeyError` whose message names the unknown model and lists the available
model names, rather than returning an instance. -/
theorem C10_unknown_model_raises (st : GatewayState) (now : Nat)
    (name : String)
    (hn : ∀ kv ∈ model_map, kv.1 ≠ name)
    (hng : is_gateway_connected st now = false ∨
      LLM_get_gateway_provider st name = none) :
    LLM_for_model_name st now name =
      Except.error (key_error_message name) ∧
    key_error_message name =
      "Model " ++ sq ++ name ++ sq ++ " not found. Available: " ++
        pyStrList ["gpt-5-nano", "claude-haiku-4-5",
          "openai/gpt-oss-120b", "gemini-2.5-flash-lite",
          "grok-4-fast"] := by
  have hfind : model_map.find? (fun kv => kv.1 == name) = none := by
    apply List.find?_eq_none.mpr
    intro kv hkv
    simp [hn kv hkv]
  have hdir : for_model_name_direct name =
      Except.error (key_error_message name) := by
    rw [for_model_name_direct, hfind]
  constructor
  · rcases hng with h | h
    · rw [LLM_for_model_name, if_neg (by simp [h])]
      exact hdir
    · by_cases hc : is_gateway_connected st now = true
      · rw [LLM_for_model_name, if_pos hc, h]
        exact hdir
      · rw [LLM_for_model_name, if_neg hc]
        exact hdir
  · rfl

theorem C10_witness :
    LLM_for_model_name c10State 0 "no-such-model" =
      Except.error (key_error_message "no-such-model") ∧
    key_error_message "no-such-model" =
      "Model " ++ sq ++ "no-such-model" ++ sq ++
        " not found. Available: " ++
        pyStrList ["gpt-5-nano", "claude-haiku-4-5",
          "openai/gpt-oss-120b", "gemini-2.5-flash-lite",
          "grok-4-fast"] :=
  C10_unknown_model_raises c10State 0 "no-such-model" (by decide)
    (Or.inl rfl)

end Outsmart
